import Mathlib

/-!
Shallow embedding of the SMS notification core of the placement portal
(`placement_connect/portal/utils.py`): phone-number normalization
(`format_phone_e164`), credential validation
(`validate_twilio_credentials`), single send with bounded retry
(`send_sms`) and bulk send (`send_sms_bulk`).

Python strings are modelled as Lean `String`; `None`-or-string values as
`Option String`.  Python's ambient `django.conf.settings` lookups are
modelled by an explicit `Settings` record whose field defaults are the
`getattr` defaults used in the source.  The Twilio client is modelled as a
function from the attempt number to a `ProviderOutcome`; side effects
(provider invocations, `time.sleep` calls) are recorded in the returned
trace so that properties about call counts and delays can be stated.
-/

namespace Placement

/-- Python `str.isspace` on the ASCII whitespace characters relevant to
`str.strip()`. -/
def pyIsSpace (c : Char) : Bool :=
  c = ' ' || c = '\t' || c = '\n' || c = '\x0d' || c = '\x0b' || c = '\x0c'

/-- Python `s.strip()`: remove leading and trailing whitespace. -/
def pyStrip (s : String) : String :=
  ⟨((s.data.dropWhile pyIsSpace).reverse.dropWhile pyIsSpace).reverse⟩

/-- Python `s.replace(c, '')` for a single-character pattern: remove every
occurrence of `c`. -/
def removeAll (c : Char) (s : String) : String :=
  ⟨s.data.filter (fun x => x ≠ c)⟩

/-- Python `s.lstrip('0')`: remove leading zeros. -/
def pyLstrip0 (s : String) : String :=
  ⟨s.data.dropWhile (fun x => x = '0')⟩

/-- Python `s.startswith(p)`. -/
def pyStartsWith (p s : String) : Bool :=
  p.data.isPrefixOf s.data

/-- The configuration values read via `getattr(settings, name, default)` in
`utils.py`, with the source's defaults.  The three credential strings
default to `""` as in `validate_twilio_credentials`. -/
structure Settings where
  SMS_ENABLED : Bool := true
  TWILIO_ACCOUNT_SID : String := ""
  TWILIO_AUTH_TOKEN : String := ""
  TWILIO_PHONE_NUMBER : String := ""
  SMS_DEFAULT_COUNTRY_CODE : String := "+91"
  SMS_RETRY_ATTEMPTS : Nat := 3
  SMS_RETRY_DELAY : Nat := 5
  SMS_BATCH_SIZE : Nat := 10

/-- Embedding of `format_phone_e164(phone_number)` (utils.py lines 16-51).
`none` models Python `None`; the `if not phone_number` falsy test accepts
both `None` and the empty string. -/
def format_phone_e164 (st : Settings) (phone_number : Option String) :
    Option String :=
  match phone_number with
  | none => none
  | some s =>
    if s = "" then none
    else
      let phone := removeAll '-' (removeAll ' ' (pyStrip s))
      if pyStartsWith "+" phone then some phone
      else
        let phone := pyLstrip0 phone
        if pyStartsWith "91" phone && phone.length = 12 then
          some ("+" ++ phone)
        else if phone.length = 10 then
          some ("+91" ++ phone)
        else if pyStartsWith "91" phone then
          some ("+" ++ phone)
        else
          some (st.SMS_DEFAULT_COUNTRY_CODE ++ phone)

/-- Embedding of `validate_twilio_credentials()` (utils.py lines 54-78). -/
def validate_twilio_credentials (st : Settings) : Bool × Option String :=
  let account_sid := pyStrip st.TWILIO_ACCOUNT_SID
  let auth_token := pyStrip st.TWILIO_AUTH_TOKEN
  let twilio_number := pyStrip st.TWILIO_PHONE_NUMBER
  if account_sid = "" || auth_token = "" || twilio_number = "" then
    let missing :=
      (if account_sid = "" then ["TWILIO_ACCOUNT_SID"] else []) ++
      (if auth_token = "" then ["TWILIO_AUTH_TOKEN"] else []) ++
      (if twilio_number = "" then ["TWILIO_PHONE_NUMBER"] else [])
    (false, some ("Missing Twilio credentials: " ++
      String.intercalate ", " missing ++
      ". Please configure these in your .env file."))
  else
    (true, none)

/-- Outcome of one invocation of `client.messages.create(...)`:
success with a message SID and optional sent-timestamp, a
`TwilioRestException` carrying a numeric code and message, or any other
exception. -/
inductive ProviderOutcome where
  | ok (sid : String) (date_sent : Option String)
  | twilioErr (code : Int) (msg : String)
  | otherErr (msg : String)
deriving DecidableEq, Repr

/-- An exception raised by `send_sms`: either the `ValueError` for an
invalid recipient or a generic `Exception` with a message. -/
inductive SmsExn where
  | valueError (msg : String)
  | exn (msg : String)
deriving DecidableEq, Repr

/-- The result dictionary returned by `send_sms`.  Keys absent from a
given Python dict are modelled as `none`; the field `to_` models the
dict key `'to'` (`to` is reserved in Lean). -/
structure SendResult where
  success : Bool
  message_id : Option String := none
  to_ : Option String := none
  error : Option String := none
  mode : Option String := none
  timestamp : Option String := none
deriving DecidableEq, Repr

/-- A call trace of `send_sms`: the returned dict or raised exception,
the number of provider invocations made, and the list of `time.sleep`
delays performed, in order. -/
structure SendTrace where
  result : Except SmsExn SendResult
  provider_calls : Nat
  sleeps : List Nat

/-- The set of Twilio error codes `send_sms` retries on. -/
def retryableCode (c : Int) : Prop :=
  c = 429 ∨ c = 500 ∨ c = 502 ∨ c = 503 ∨ c = 504

instance (c : Int) : Decidable (retryableCode c) := by
  unfold retryableCode; infer_instance

/-- Embedding of `send_sms(to_number, message_body, retry_count)`
(utils.py lines 81-168).  `provider n` is the outcome of the provider
call made at retry count `n` (callers start at `retry_count = 0` and each
recursion increments it, so attempts are numbered consecutively).
`uuidHex` stands for the random `uuid4().hex[:12].upper()` fragment used
in demo mode.  The Python falsy test `if not formatted_number` rejects
both `None` and `""`. -/
def send_sms (st : Settings) (provider : Nat → ProviderOutcome)
    (uuidHex : String) (to_number : Option String) (message_body : String)
    (retry_count : Nat) : SendTrace :=
  if st.SMS_ENABLED = false then
    { result := .ok { success := false,
                      error := some "SMS is disabled",
                      message_id := none },
      provider_calls := 0, sleeps := [] }
  else if (validate_twilio_credentials st).1 = false then
    { result := .ok { success := true,
                      message_id := some ("DEMO_MODE_" ++ uuidHex),
                      to_ := format_phone_e164 st to_number,
                      mode := some "demo" },
      provider_calls := 0, sleeps := [] }
  else
    match format_phone_e164 st to_number with
    | none =>
      { result := .error (.valueError "Invalid recipient phone number"),
        provider_calls := 0, sleeps := [] }
    | some formatted_number =>
      if formatted_number = "" then
        { result := .error (.valueError "Invalid recipient phone number"),
          provider_calls := 0, sleeps := [] }
      else
        match provider retry_count with
        | .ok sid date_sent =>
          { result := .ok { success := true,
                            message_id := some sid,
                            to_ := some formatted_number,
                            timestamp := date_sent },
            provider_calls := 1, sleeps := [] }
        | .twilioErr code msg =>
          if h : retryableCode code ∧ retry_count < st.SMS_RETRY_ATTEMPTS
          then
            let rest := send_sms st provider uuidHex to_number message_body
              (retry_count + 1)
            { result := rest.result,
              provider_calls := 1 + rest.provider_calls,
              sleeps := st.SMS_RETRY_DELAY :: rest.sleeps }
          else
            { result := .error (.exn ("Twilio Error " ++ toString code ++
                                      ": " ++ msg)),
              provider_calls := 1, sleeps := [] }
        | .otherErr msg =>
          { result := .error (.exn ("SMS Error: " ++ msg)),
            provider_calls := 1, sleeps := [] }
termination_by st.SMS_RETRY_ATTEMPTS - retry_count
decreasing_by
  omega

/-- The result dictionary built by `send_sms_bulk`, together with the
number of inter-batch `time.sleep(1)` pauses performed (a trace field, not
a key of the Python dict). -/
structure BulkResult where
  sent : List (Option String)
  failed : List (Option String × Option String)
  total : Nat
  pauses : Nat
deriving DecidableEq, Repr

/-- One iteration of the loop body of `send_sms_bulk` at enumeration index
`i` for recipient `phone_number`. -/
def bulkStep (st : Settings) (provs : Nat → Nat → ProviderOutcome)
    (uuids : Nat → String) (message_body : String) (n : Nat)
    (acc : BulkResult) (p : Nat × Option String) : BulkResult :=
  let tr := send_sms st (provs p.1) (uuids p.1) p.2 message_body 0
  let acc' :=
    match tr.result with
    | .ok r =>
      if r.success then { acc with sent := acc.sent ++ [p.2] }
      else { acc with failed := acc.failed ++ [(p.2, r.error)] }
    | .error (.valueError m) =>
      { acc with failed := acc.failed ++ [(p.2, some m)] }
    | .error (.exn m) =>
      { acc with failed := acc.failed ++ [(p.2, some m)] }
  if (p.1 + 1) % st.SMS_BATCH_SIZE = 0 && (p.1 + 1) < n then
    { acc' with pauses := acc'.pauses + 1 }
  else acc'

/-- Embedding of `send_sms_bulk(recipients, message_body)` (utils.py lines
171-206).  `provs i` and `uuids i` give the provider behavior and demo
uuid fragment for the send to recipient number `i`; each per-recipient
send starts at `retry_count = 0`.  The `try/except Exception` around each
send captures every raised error as a `{phone, reason}` entry. -/
def send_sms_bulk (st : Settings) (provs : Nat → Nat → ProviderOutcome)
    (uuids : Nat → String) (recipients : List (Option String))
    (message_body : String) : BulkResult :=
  (recipients.enum).foldl
    (bulkStep st provs uuids message_body recipients.length)
    { sent := [], failed := [], total := recipients.length, pauses := 0 }

/-! ### Concrete configurations and provider behaviors used as fixtures -/

/-- The configuration with every option at its `getattr` default: SMS
enabled, credentials unset (hence demo mode), retry and batch tunables at
their defaults. -/
def defaultSettings : Settings := {}

/-- A production configuration: all three credentials configured, every
other option at its default. -/
def stProd : Settings :=
  { TWILIO_ACCOUNT_SID := "AC123", TWILIO_AUTH_TOKEN := "token7",
    TWILIO_PHONE_NUMBER := "+15551234567" }

/-- A configuration with the master kill switch off. -/
def stDisabled : Settings := { SMS_ENABLED := false }

/-- A provider that always succeeds. -/
def provOk : Nat → ProviderOutcome := fun _ => .ok "SM123" none

/-- A provider that raises code 503 on the first two attempts, then
succeeds. -/
def prov503 : Nat → ProviderOutcome := fun n =>
  if n < 2 then .twilioErr 503 "Service Unavailable" else .ok "SM123" none

/-- A provider that always raises code 400. -/
def prov400 : Nat → ProviderOutcome := fun _ => .twilioErr 400 "Bad Request"

/-! ### Branch lemmas for `send_sms` -/

theorem validate_fst_false_iff (st : Settings) :
    (validate_twilio_credentials st).1 = false ↔
      (pyStrip st.TWILIO_ACCOUNT_SID = "" ∨
       pyStrip st.TWILIO_AUTH_TOKEN = "" ∨
       pyStrip st.TWILIO_PHONE_NUMBER = "") := by
  by_cases h : pyStrip st.TWILIO_ACCOUNT_SID = "" ∨
      pyStrip st.TWILIO_AUTH_TOKEN = "" ∨ pyStrip st.TWILIO_PHONE_NUMBER = ""
  · rcases h with h | h | h <;> simp [validate_twilio_credentials, h]
  · push_neg at h
    simp [validate_twilio_credentials, h.1, h.2.1, h.2.2]

theorem send_sms_disabled_eq (st : Settings)
    (provider : Nat → ProviderOutcome) (uuidHex : String)
    (to_number : Option String) (body : String) (rc : Nat)
    (hdis : st.SMS_ENABLED = false) :
    send_sms st provider uuidHex to_number body rc =
      { result := .ok { success := false,
                        error := some "SMS is disabled",
                        message_id := none },
        provider_calls := 0, sleeps := [] } := by
  rw [send_sms]
  simp [hdis]

theorem send_sms_demo_eq (st : Settings)
    (provider : Nat → ProviderOutcome) (uuidHex : String)
    (to_number : Option String) (body : String) (rc : Nat)
    (hen : st.SMS_ENABLED = true)
    (hval : (validate_twilio_credentials st).1 = false) :
    send_sms st provider uuidHex to_number body rc =
      { result := .ok { success := true,
                        message_id := some ("DEMO_MODE_" ++ uuidHex),
                        to_ := format_phone_e164 st to_number,
                        mode := some "demo" },
        provider_calls := 0, sleeps := [] } := by
  rw [send_sms]
  simp [hen, hval]

theorem send_sms_invalid_none_eq (st : Settings)
    (provider : Nat → ProviderOutcome) (uuidHex : String)
    (to_number : Option String) (body : String) (rc : Nat)
    (hen : st.SMS_ENABLED = true)
    (hval : (validate_twilio_credentials st).1 = true)
    (hfmt : format_phone_e164 st to_number = none) :
    send_sms st provider uuidHex to_number body rc =
      { result := .error (.valueError "Invalid recipient phone number"),
        provider_calls := 0, sleeps := [] } := by
  rw [send_sms]
  simp [hen, hval, hfmt]

theorem send_sms_invalid_empty_eq (st : Settings)
    (provider : Nat → ProviderOutcome) (uuidHex : String)
    (to_number : Option String) (body : String) (rc : Nat)
    (hen : st.SMS_ENABLED = true)
    (hval : (validate_twilio_credentials st).1 = true)
    (hfmt : format_phone_e164 st to_number = some "") :
    send_sms st provider uuidHex to_number body rc =
      { result := .error (.valueError "Invalid recipient phone number"),
        provider_calls := 0, sleeps := [] } := by
  rw [send_sms]
  simp [hen, hval, hfmt]

theorem send_sms_ok_eq (st : Settings)
    (provider : Nat → ProviderOutcome) (uuidHex : String)
    (to_number : Option String) (body : String) (rc : Nat)
    (f sid : String) (ts : Option String)
    (hen : st.SMS_ENABLED = true)
    (hval : (validate_twilio_credentials st).1 = true)
    (hfmt : format_phone_e164 st to_number = some f) (hf : f ≠ "")
    (hp : provider rc = .ok sid ts) :
    send_sms st provider uuidHex to_number body rc =
      { result := .ok { success := true,
                        message_id := some sid,
                        to_ := some f,
                        timestamp := ts },
        provider_calls := 1, sleeps := [] } := by
  rw [send_sms]
  simp [hen, hval, hfmt, hf, hp]

theorem send_sms_retry_eq (st : Settings)
    (provider : Nat → ProviderOutcome) (uuidHex : String)
    (to_number : Option String) (body : String) (rc : Nat)
    (f : String) (c : Int) (m : String)
    (hen : st.SMS_ENABLED = true)
    (hval : (validate_twilio_credentials st).1 = true)
    (hfmt : format_phone_e164 st to_number = some f) (hf : f ≠ "")
    (hp : provider rc = .twilioErr c m)
    (hr : retryableCode c) (hlt : rc < st.SMS_RETRY_ATTEMPTS) :
    send_sms st provider uuidHex to_number body rc =
      { result :=
          (send_sms st provider uuidHex to_number body (rc + 1)).result,
        provider_calls := 1 +
          (send_sms st provider uuidHex to_number body
            (rc + 1)).provider_calls,
        sleeps := st.SMS_RETRY_DELAY ::
          (send_sms st provider uuidHex to_number body (rc + 1)).sleeps
        } := by
  rw [send_sms]
  simp [hen, hval, hfmt, hf, hp, hr, hlt]

theorem send_sms_fatal_eq (st : Settings)
    (provider : Nat → ProviderOutcome) (uuidHex : String)
    (to_number : Option String) (body : String) (rc : Nat)
    (f : String) (c : Int) (m : String)
    (hen : st.SMS_ENABLED = true)
    (hval : (validate_twilio_credentials st).1 = true)
    (hfmt : format_phone_e164 st to_number = some f) (hf : f ≠ "")
    (hp : provider rc = .twilioErr c m)
    (hnr : ¬(retryableCode c ∧ rc < st.SMS_RETRY_ATTEMPTS)) :
    send_sms st provider uuidHex to_number body rc =
      { result := .error (.exn ("Twilio Error " ++ toString c ++ ": " ++ m)),
        provider_calls := 1, sleeps := [] } := by
  rw [send_sms]
  simp [hen, hval, hfmt, hf, hp, hnr]

theorem send_sms_other_eq (st : Settings)
    (provider : Nat → ProviderOutcome) (uuidHex : String)
    (to_number : Option String) (body : String) (rc : Nat)
    (f m : String)
    (hen : st.SMS_ENABLED = true)
    (hval : (validate_twilio_credentials st).1 = true)
    (hfmt : format_phone_e164 st to_number = some f) (hf : f ≠ "")
    (hp : provider rc = .otherErr m) :
    send_sms st provider uuidHex to_number body rc =
      { result := .error (.exn ("SMS Error: " ++ m)),
        provider_calls := 1, sleeps := [] } := by
  rw [send_sms]
  simp [hen, hval, hfmt, hf, hp]

/-! ### The success / message_id invariant -/

theorem send_ok_invariant_aux :
    ∀ (k : Nat) (st : Settings) (provider : Nat → ProviderOutcome)
      (u : String) (to_number : Option String) (b : String) (rc : Nat),
      st.SMS_RETRY_ATTEMPTS - rc = k →
      ∀ r : SendResult,
        (send_sms st provider u to_number b rc).result = Except.ok r →
        (r.message_id ≠ none ↔ r.success = true) := by
  intro k
  induction k using Nat.strong_induction_on with
  | _ k ih =>
  intro st provider u to_number b rc hk r hr
  by_cases hen : st.SMS_ENABLED = false
  · rw [send_sms_disabled_eq st provider u to_number b rc hen] at hr
    simp at hr
    subst hr
    simp
  · simp at hen
    by_cases hval : (validate_twilio_credentials st).1 = false
    · rw [send_sms_demo_eq st provider u to_number b rc hen hval] at hr
      simp at hr
      subst hr
      simp
    · simp at hval
      cases hfmt : format_phone_e164 st to_number with
      | none =>
        rw [send_sms_invalid_none_eq st provider u to_number b rc
          hen hval hfmt] at hr
        simp at hr
      | some f =>
        by_cases hfe : f = ""
        · subst hfe
          rw [send_sms_invalid_empty_eq st provider u to_number b rc
            hen hval hfmt] at hr
          simp at hr
        · cases hp : provider rc with
          | ok sid ts =>
            rw [send_sms_ok_eq st provider u to_number b rc f sid ts
              hen hval hfmt hfe hp] at hr
            simp at hr
            subst hr
            simp
          | twilioErr c m =>
            by_cases hcond : retryableCode c ∧ rc < st.SMS_RETRY_ATTEMPTS
            · obtain ⟨hc1, hc2⟩ := hcond
              rw [send_sms_retry_eq st provider u to_number b rc f c m
                hen hval hfmt hfe hp hc1 hc2] at hr
              simp at hr
              exact ih (st.SMS_RETRY_ATTEMPTS - (rc + 1)) (by omega)
                st provider u to_number b (rc + 1) rfl r hr
            · rw [send_sms_fatal_eq st provider u to_number b rc f c m
                hen hval hfmt hfe hp hcond] at hr
              simp at hr
          | otherErr m =>
            rw [send_sms_other_eq st provider u to_number b rc f m
              hen hval hfmt hfe hp] at hr
            simp at hr

/-! ### Counting lemmas for `send_sms_bulk` -/

theorem bulkStep_counts (st : Settings)
    (provs : Nat → Nat → ProviderOutcome) (uuids : Nat → String)
    (body : String) (n : Nat) (acc : BulkResult)
    (p : Nat × Option String) :
    (bulkStep st provs uuids body n acc p).sent.length +
      (bulkStep st provs uuids body n acc p).failed.length =
      acc.sent.length + acc.failed.length + 1 ∧
    (bulkStep st provs uuids body n acc p).total = acc.total := by
  simp only [bulkStep]
  cases hres : (send_sms st (provs p.1) (uuids p.1) p.2 body 0).result with
  | ok r =>
    by_cases hs : r.success = true <;>
      split <;> simp [hs] <;> omega
  | error e =>
    cases e <;> split <;> simp <;> omega

theorem bulk_foldl_counts (st : Settings)
    (provs : Nat → Nat → ProviderOutcome) (uuids : Nat → String)
    (body : String) (n : Nat) :
    ∀ (l : List (Nat × Option String)) (acc : BulkResult),
      ((l.foldl (bulkStep st provs uuids body n) acc).sent.length +
        (l.foldl (bulkStep st provs uuids body n) acc).failed.length =
        acc.sent.length + acc.failed.length + l.length) ∧
      (l.foldl (bulkStep st provs uuids body n) acc).total = acc.total := by
  intro l
  induction l with
  | nil => intro acc; simp
  | cons p l ih =>
    intro acc
    simp only [List.foldl_cons, List.length_cons]
    have h1 := bulkStep_counts st provs uuids body n acc p
    have h2 := ih (bulkStep st provs uuids body n acc p)
    constructor
    · omega
    · rw [h2.2, h1.2]

/-! ### Lemmas about the phone normalizer -/

theorem dropWhile_eq_self_of_all (p : Char → Bool) (l : List Char)
    (h : ∀ c ∈ l, p c = false) : l.dropWhile p = l := by
  cases l with
  | nil => rfl
  | cons a as =>
    rw [List.dropWhile_cons, h a (by simp)]
    simp

theorem pyStrip_eq_self (s : String)
    (h : ∀ c ∈ s.data, pyIsSpace c = false) : pyStrip s = s := by
  unfold pyStrip
  rw [dropWhile_eq_self_of_all _ _ h,
    dropWhile_eq_self_of_all _ _
      (fun c hc => h c (List.mem_reverse.mp hc)),
    List.reverse_reverse]

theorem removeAll_eq_self (c : Char) (s : String)
    (h : ∀ x ∈ s.data, x ≠ c) : removeAll c s = s := by
  unfold removeAll
  rw [List.filter_eq_self.mpr (fun a ha => by simpa using h a ha)]

theorem pyLstrip0_eq_self (s : String) (h : s.data.head? ≠ some '0') :
    pyLstrip0 s = s := by
  unfold pyLstrip0
  have hd : s.data.dropWhile (fun x => x = '0') = s.data := by
    cases hl : s.data with
    | nil => rfl
    | cons a as =>
      have ha : a ≠ '0' := by rw [hl] at h; simpa using h
      rw [List.dropWhile_cons]
      simp [ha]
  rw [hd]

theorem pyStartsWith_plus_iff (s : String) :
    pyStartsWith "+" s = true ↔ s.data.head? = some '+' := by
  unfold pyStartsWith
  have hp : ("+" : String).data = ['+'] := rfl
  rw [hp]
  cases hl : s.data with
  | nil => simp [List.isPrefixOf]
  | cons a as =>
    have h0 : ([] : List Char).isPrefixOf as = true := by cases as <;> rfl
    rw [List.isPrefixOf_cons₂, h0, Bool.and_true, beq_iff_eq]
    simp only [List.head?_cons, Option.some.injEq]
    exact eq_comm

theorem pyIsSpace_false_facts (c : Char) (h : pyIsSpace c = false) :
    c ≠ ' ' := by
  intro he
  rw [he] at h
  exact absurd h (by decide)

theorem isDigit_char_facts (c : Char) (h : c.isDigit = true) :
    pyIsSpace c = false ∧ c ≠ '+' ∧ c ≠ '-' := by
  have hne : ∀ x : Char, x.isDigit = false → c ≠ x := by
    intro x hx he
    rw [he, hx] at h
    exact Bool.false_ne_true h
  refine ⟨?_, hne '+' (by decide), hne '-' (by decide)⟩
  have h1 := hne ' ' (by decide)
  have h2 := hne '\t' (by decide)
  have h3 := hne '\n' (by decide)
  have h4 := hne '\x0d' (by decide)
  have h5 := hne '\x0b' (by decide)
  have h6 := hne '\x0c' (by decide)
  simp [pyIsSpace, h1, h2, h3, h4, h5, h6]

theorem format_some_of_ne (st : Settings) (s : String) (hs : s ≠ "") :
    ∃ t, format_phone_e164 st (some s) = some t := by
  simp only [format_phone_e164]
  rw [if_neg hs]
  split
  · exact ⟨_, rfl⟩
  · split
    · exact ⟨_, rfl⟩
    · split
      · exact ⟨_, rfl⟩
      · split
        · exact ⟨_, rfl⟩
        · exact ⟨_, rfl⟩

/-- C6 (amended): for every 10-digit numeric string `d` whose first digit
is not `'0'`, the normalizer returns `"+91" ++ d`.  (The original claim,
for every 10-digit numeric string, fails on strings with a leading zero
because `lstrip('0')` runs before the length-10 rule.) -/
theorem ten_digit_normalization_amended (st : Settings) (d : String)
    (hlen : d.length = 10) (hdig : ∀ c ∈ d.data, c.isDigit = true)
    (hhead : d.data.head? ≠ some '0') :
    format_phone_e164 st (some d) = some ("+91" ++ d) := by
  have hne : d ≠ "" := by
    intro he
    subst he
    simp at hlen
  have h1 : pyStrip d = d :=
    pyStrip_eq_self d (fun c hc => (isDigit_char_facts c (hdig c hc)).1)
  have h2 : removeAll ' ' d = d :=
    removeAll_eq_self ' ' d (fun c hc =>
      pyIsSpace_false_facts c (isDigit_char_facts c (hdig c hc)).1)
  have h3 : removeAll '-' d = d :=
    removeAll_eq_self '-' d (fun c hc =>
      (isDigit_char_facts c (hdig c hc)).2.2)
  have h4 : pyStartsWith "+" d = false := by
    rw [Bool.eq_false_iff, Ne, pyStartsWith_plus_iff]
    cases hl : d.data with
    | nil => simp
    | cons a as =>
      have ha := hdig a (by rw [hl]; simp)
      have : a ≠ '+' := (isDigit_char_facts a ha).2.1
      simp [this]
  have h5 : pyLstrip0 d = d := pyLstrip0_eq_self d hhead
  simp only [format_phone_e164]
  rw [if_neg hne, h1, h2, h3, h5, h4]
  simp [hlen]

/-- C7 (amended): for every string `s` that starts with `'+'` and contains
no whitespace characters and no hyphens, the normalizer returns `s`
unchanged.  (The original claim, for every string starting with `'+'`,
fails because spaces and hyphens are removed before the `'+'` check.) -/
theorem plus_identity_amended (st : Settings) (s : String)
    (hplus : s.data.head? = some '+')
    (hns : ∀ c ∈ s.data, pyIsSpace c = false)
    (hnd : ∀ c ∈ s.data, c ≠ '-') :
    format_phone_e164 st (some s) = some s := by
  have hne : s ≠ "" := by
    intro he
    subst he
    simp at hplus
  have h1 : pyStrip s = s := pyStrip_eq_self s hns
  have h2 : removeAll ' ' s = s :=
    removeAll_eq_self ' ' s (fun c hc => pyIsSpace_false_facts c (hns c hc))
  have h3 : removeAll '-' s = s := removeAll_eq_self '-' s hnd
  have h4 : pyStartsWith "+" s = true := (pyStartsWith_plus_iff s).mpr hplus
  simp only [format_phone_e164]
  rw [if_neg hne, h1, h2, h3, h4]
  simp

/-! ### Claims -/

/-- C1: with SMS enabled, valid credentials and a recipient normalizing to
a non-empty string, a provider error with numeric code `c` at retry count
`rc` sleeps the configured delay and recurses with `rc + 1` exactly when
`c ∈ {429, 500, 502, 503, 504}` and `rc` is below the configured maximum;
otherwise it raises an error wrapping `c` and the provider message.
Consequently, with the default `max_retries = 3`, a provider raising 503
twice then succeeding yields success after exactly 3 provider calls with
two delays of the configured length, and a provider always raising 400
causes a raise after exactly one provider call with no retry. -/
theorem sms_retry_policy :
    (∀ (st : Settings) (provider : Nat → ProviderOutcome)
       (uuidHex : String) (to_number : Option String) (body : String)
       (rc : Nat) (f : String) (c : Int) (m : String),
       st.SMS_ENABLED = true →
       (validate_twilio_credentials st).1 = true →
       format_phone_e164 st to_number = some f →
       f ≠ "" →
       provider rc = .twilioErr c m →
       (retryableCode c ∧ rc < st.SMS_RETRY_ATTEMPTS →
         send_sms st provider uuidHex to_number body rc =
           { result :=
               (send_sms st provider uuidHex to_number body
                 (rc + 1)).result,
             provider_calls := 1 +
               (send_sms st provider uuidHex to_number body
                 (rc + 1)).provider_calls,
             sleeps := st.SMS_RETRY_DELAY ::
               (send_sms st provider uuidHex to_number body
                 (rc + 1)).sleeps }) ∧
       (¬(retryableCode c ∧ rc < st.SMS_RETRY_ATTEMPTS) →
         send_sms st provider uuidHex to_number body rc =
           { result := .error (.exn ("Twilio Error " ++ toString c ++
               ": " ++ m)),
             provider_calls := 1, sleeps := [] })) ∧
    (send_sms stProd prov503 "AB12" (some "9876543210") "hello" 0 =
      { result := .ok { success := true,
                        message_id := some "SM123",
                        to_ := some "+919876543210",
                        timestamp := none },
        provider_calls := 3, sleeps := [5, 5] }) ∧
    (send_sms stProd prov400 "AB12" (some "9876543210") "hello" 0 =
      { result := .error (.exn "Twilio Error 400: Bad Request"),
        provider_calls := 1, sleeps := [] }) := by
  refine ⟨?_, ?_, ?_⟩
  · intro st provider uuidHex to_number body rc f c m hen hval hfmt hf hp
    exact ⟨fun h => send_sms_retry_eq st provider uuidHex to_number body rc
        f c m hen hval hfmt hf hp h.1 h.2,
      fun h => send_sms_fatal_eq st provider uuidHex to_number body rc
        f c m hen hval hfmt hf hp h⟩
  · have h1 : stProd.SMS_ENABLED = true := rfl
    have h2 : (validate_twilio_credentials stProd).1 = true := by decide
    have h3 : stProd.SMS_RETRY_ATTEMPTS = 3 := rfl
    have h4 : stProd.SMS_RETRY_DELAY = 5 := rfl
    have hf : format_phone_e164 stProd (some "9876543210") =
        some "+919876543210" := by decide
    have hp0 : prov503 0 = .twilioErr 503 "Service Unavailable" := rfl
    have hp1 : prov503 1 = .twilioErr 503 "Service Unavailable" := rfl
    have hp2 : prov503 2 = .ok "SM123" none := rfl
    rw [send_sms]
    simp +decide only [h1, h2, h3, h4, hf, hp0, retryableCode]
    rw [send_sms]
    simp +decide only [h1, h2, h3, h4, hf, hp1, retryableCode]
    rw [send_sms]
    simp +decide [h1, h2, h3, h4, hf, hp2, retryableCode]
  · have h1 : stProd.SMS_ENABLED = true := rfl
    have h2 : (validate_twilio_credentials stProd).1 = true := by decide
    have hf : format_phone_e164 stProd (some "9876543210") =
        some "+919876543210" := by decide
    have hp : prov400 0 = .twilioErr 400 "Bad Request" := rfl
    rw [send_sms]
    simp +decide [h1, h2, hf, hp, retryableCode]

/-- Witness for C1: the no-retry branch at code 400, retry count 0. -/
theorem sms_retry_policy_witness :
    send_sms stProd prov400 "ZZ" (some "9876543210") "msg" 0 =
      { result := .error (.exn ("Twilio Error " ++ toString (400 : Int) ++
          ": " ++ "Bad Request")),
        provider_calls := 1, sleeps := [] } :=
  (sms_retry_policy.1 stProd prov400 "ZZ" (some "9876543210") "msg" 0
    "+919876543210" 400 "Bad Request" rfl (by decide) (by decide)
    (by decide) rfl).2 (by decide)

/-- C2: when at least one of the three Twilio credentials is empty after
trimming (and SMS is enabled, so the kill switch does not pre-empt the
credential check), `send_sms` does not raise and does not invoke the
provider; it returns `success = true`, `mode = "demo"`, the normalized
recipient, and a `message_id` starting with `"DEMO_MODE_"`. -/
theorem sms_demo_mode_on_missing_credentials (st : Settings)
    (provider : Nat → ProviderOutcome) (uuidHex : String)
    (to_number : Option String) (body : String) (rc : Nat)
    (hen : st.SMS_ENABLED = true)
    (hcred : pyStrip st.TWILIO_ACCOUNT_SID = "" ∨
             pyStrip st.TWILIO_AUTH_TOKEN = "" ∨
             pyStrip st.TWILIO_PHONE_NUMBER = "") :
    send_sms st provider uuidHex to_number body rc =
      { result := .ok { success := true,
                        message_id := some ("DEMO_MODE_" ++ uuidHex),
                        to_ := format_phone_e164 st to_number,
                        mode := some "demo" },
        provider_calls := 0, sleeps := [] } ∧
    pyStartsWith "DEMO_MODE_" ("DEMO_MODE_" ++ uuidHex) = true := by
  constructor
  · exact send_sms_demo_eq st provider uuidHex to_number body rc hen
      ((validate_fst_false_iff st).mpr hcred)
  · unfold pyStartsWith
    rw [String.data_append]
    exact List.isPrefixOf_iff_prefix.mpr (List.prefix_append _ _)

/-- Witness for C2 at the all-defaults configuration (no credentials). -/
theorem sms_demo_mode_on_missing_credentials_witness :
    (send_sms defaultSettings provOk "ABCDEF123456" (some "9876543210")
        "hello" 0 =
      { result := .ok { success := true,
                        message_id := some ("DEMO_MODE_" ++ "ABCDEF123456"),
                        to_ := format_phone_e164 defaultSettings
                          (some "9876543210"),
                        mode := some "demo" },
        provider_calls := 0, sleeps := [] } ∧
     pyStartsWith "DEMO_MODE_" ("DEMO_MODE_" ++ "ABCDEF123456") = true) :=
  sms_demo_mode_on_missing_credentials defaultSettings provOk
    "ABCDEF123456" (some "9876543210") "hello" 0 rfl (Or.inl (by decide))

/-- C3: when the SMS-enabled flag is false, `send_sms` returns immediately
with `success = false`, `error = "SMS is disabled"`, `message_id = none`,
makes no provider call and raises no exception. -/
theorem sms_disabled_short_circuit (st : Settings)
    (provider : Nat → ProviderOutcome) (uuidHex : String)
    (to_number : Option String) (body : String) (rc : Nat)
    (hdis : st.SMS_ENABLED = false) :
    send_sms st provider uuidHex to_number body rc =
      { result := .ok { success := false,
                        error := some "SMS is disabled",
                        message_id := none },
        provider_calls := 0, sleeps := [] } :=
  send_sms_disabled_eq st provider uuidHex to_number body rc hdis

/-- Witness for C3. -/
theorem sms_disabled_short_circuit_witness :
    send_sms stDisabled provOk "AB12" (some "9876543210") "hello" 0 =
      { result := .ok { success := false,
                        error := some "SMS is disabled",
                        message_id := none },
        provider_calls := 0, sleeps := [] } :=
  sms_disabled_short_circuit stDisabled provOk "AB12" (some "9876543210")
    "hello" 0 rfl

/-- C4: with the batch size at its positive default, `send_sms_bulk` never
raises (it is a total function into `BulkResult`, every raised error or
`success = false` result being recorded as a failed entry by `bulkStep`),
and the returned record satisfies
`len(sent) + len(failed) = total = len(recipients)`. -/
theorem sms_bulk_partitions_recipients (st : Settings)
    (provs : Nat → Nat → ProviderOutcome) (uuids : Nat → String)
    (recipients : List (Option String)) (body : String)
    (hbatch : st.SMS_BATCH_SIZE = 10) :
    (send_sms_bulk st provs uuids recipients body).sent.length +
      (send_sms_bulk st provs uuids recipients body).failed.length =
      (send_sms_bulk st provs uuids recipients body).total ∧
    (send_sms_bulk st provs uuids recipients body).total =
      recipients.length := by
  have h := bulk_foldl_counts st provs uuids body recipients.length
    recipients.enum
    { sent := [], failed := [], total := recipients.length, pauses := 0 }
  unfold send_sms_bulk
  refine ⟨?_, ?_⟩
  · rw [h.2]
    simpa [List.enum_length] using h.1
  · simpa using h.2

/-- Witness for C4: two recipients, one provider failure, one `None`. -/
theorem sms_bulk_partitions_recipients_witness :
    ((send_sms_bulk stProd (fun _ => prov400) (fun _ => "AB")
        [some "9876543210", none] "hi").sent.length +
      (send_sms_bulk stProd (fun _ => prov400) (fun _ => "AB")
        [some "9876543210", none] "hi").failed.length =
      (send_sms_bulk stProd (fun _ => prov400) (fun _ => "AB")
        [some "9876543210", none] "hi").total ∧
    (send_sms_bulk stProd (fun _ => prov400) (fun _ => "AB")
        [some "9876543210", none] "hi").total =
      ([some "9876543210", none] : List (Option String)).length) :=
  sms_bulk_partitions_recipients stProd (fun _ => prov400) (fun _ => "AB")
    [some "9876543210", none] "hi" rfl

/-- C5: every result record returned (rather than raised) by `send_sms`
has `message_id` present (non-`none`) if and only if `success` is true. -/
theorem sms_result_message_id_iff_success (st : Settings)
    (provider : Nat → ProviderOutcome) (uuidHex : String)
    (to_number : Option String) (body : String) (rc : Nat)
    (r : SendResult)
    (hr : (send_sms st provider uuidHex to_number body rc).result =
      Except.ok r) :
    r.message_id ≠ none ↔ r.success = true :=
  send_ok_invariant_aux (st.SMS_RETRY_ATTEMPTS - rc) st provider uuidHex
    to_number body rc rfl r hr

/-- Witness for C5 on the disabled-path result record. -/
theorem sms_result_message_id_iff_success_witness :
    (({ success := false, error := some "SMS is disabled",
        message_id := none } : SendResult).message_id ≠ none ↔
     ({ success := false, error := some "SMS is disabled",
        message_id := none } : SendResult).success = true) :=
  sms_result_message_id_iff_success stDisabled provOk "AB"
    (some "9876543210") "m" 0 _ (by rw [send_sms]; simp +decide [stDisabled])

/-- C6 counterexample: `"0123456789"` is a 10-digit numeric string, yet
the normalizer strips the leading zero before the length-10 rule applies
and falls through to the fallback, producing `"+91123456789"` instead of
`"+910123456789"`. -/
theorem ten_digit_normalization_counterexample :
    ("0123456789" : String).length = 10 ∧
    ("0123456789" : String).data.all Char.isDigit = true ∧
    format_phone_e164 defaultSettings (some "0123456789") ≠
      some ("+91" ++ "0123456789") := by
  decide

/-- Witness for C6 (amended). -/
theorem ten_digit_normalization_witness :
    format_phone_e164 defaultSettings (some "9876543210") =
      some ("+91" ++ "9876543210") :=
  ten_digit_normalization_amended defaultSettings "9876543210" (by decide)
    (by decide) (by decide)

/-- C7 counterexample: `"+1-2"` starts with `'+'` but is not returned
unchanged, because the hyphen is removed before the `'+'` check. -/
theorem plus_identity_counterexample :
    pyStartsWith "+" "+1-2" = true ∧
    format_phone_e164 defaultSettings (some "+1-2") ≠ some "+1-2" := by
  decide

/-- Witness for C7 (amended). -/
theorem plus_identity_witness :
    format_phone_e164 defaultSettings (some "+919876543210") =
      some "+919876543210" :=
  plus_identity_amended defaultSettings "+919876543210" (by decide)
    (by decide) (by decide)

/-- C8: the normalizer is a total function on optional strings (the
embedding is a total Lean function, so it never raises, and it is
deterministic); it returns `none` exactly on `None` or empty input. -/
theorem normalizer_total_none_iff_empty (st : Settings)
    (x : Option String) :
    format_phone_e164 st x = none ↔ (x = none ∨ x = some "") := by
  constructor
  · intro h
    cases x with
    | none => exact Or.inl rfl
    | some s =>
      by_cases hs : s = ""
      · exact Or.inr (by rw [hs])
      · obtain ⟨t, ht⟩ := format_some_of_ne st s hs
        rw [ht] at h
        simp at h
  · intro h
    rcases h with h | h <;> subst h <;> simp [format_phone_e164]

/-- Witness for C8 at `None` and `""` under default settings. -/
theorem normalizer_total_none_iff_empty_witness :
    format_phone_e164 defaultSettings none = none ∧
    format_phone_e164 defaultSettings (some "") = none :=
  ⟨(normalizer_total_none_iff_empty defaultSettings none).mpr (Or.inl rfl),
   (normalizer_total_none_iff_empty defaultSettings (some "")).mpr
     (Or.inr rfl)⟩

/-- C9: the credential validator returns `(true, none)` iff all three
configuration values are non-empty after trimming; otherwise it returns
`(false, msg)` where `msg` contains exactly the names of the missing
values, comma-joined, in the fixed error template. -/
theorem validate_credentials_characterization (st : Settings) :
    (validate_twilio_credentials st = (true, none) ↔
      (pyStrip st.TWILIO_ACCOUNT_SID ≠ "" ∧
       pyStrip st.TWILIO_AUTH_TOKEN ≠ "" ∧
       pyStrip st.TWILIO_PHONE_NUMBER ≠ "")) ∧
    ((pyStrip st.TWILIO_ACCOUNT_SID = "" ∨
      pyStrip st.TWILIO_AUTH_TOKEN = "" ∨
      pyStrip st.TWILIO_PHONE_NUMBER = "") →
      validate_twilio_credentials st =
        (false, some ("Missing Twilio credentials: " ++
          String.intercalate ", "
            (([("TWILIO_ACCOUNT_SID", st.TWILIO_ACCOUNT_SID),
               ("TWILIO_AUTH_TOKEN", st.TWILIO_AUTH_TOKEN),
               ("TWILIO_PHONE_NUMBER", st.TWILIO_PHONE_NUMBER)].filter
                (fun p => pyStrip p.2 = "")).map Prod.fst) ++
          ". Please configure these in your .env file."))) := by
  by_cases h1 : pyStrip st.TWILIO_ACCOUNT_SID = "" <;>
    by_cases h2 : pyStrip st.TWILIO_AUTH_TOKEN = "" <;>
      by_cases h3 : pyStrip st.TWILIO_PHONE_NUMBER = "" <;>
        simp [validate_twilio_credentials, h1, h2, h3]

/-- Witness for C9 at the all-defaults configuration, where all three
credentials are missing. -/
theorem validate_credentials_characterization_witness :
    validate_twilio_credentials defaultSettings =
      (false, some ("Missing Twilio credentials: TWILIO_ACCOUNT_SID, " ++
        "TWILIO_AUTH_TOKEN, TWILIO_PHONE_NUMBER. " ++
        "Please configure these in your .env file.")) := by
  rw [(validate_credentials_characterization defaultSettings).2
    (Or.inl (by decide))]
  decide

/-- C10: when the credentials are unset (demo mode) and SMS is enabled,
`send_sms` returns `success = true` even for an empty or `None` recipient,
with the normalized recipient field `none`, and never raises the
invalid-recipient error; moreover any call whose result is the raised
invalid-recipient `ValueError` must have had valid credentials. -/
theorem sms_demo_mode_empty_recipient :
    (∀ (st : Settings) (provider : Nat → ProviderOutcome)
       (uuidHex : String) (to_number : Option String) (body : String)
       (rc : Nat),
       st.SMS_ENABLED = true →
       (pyStrip st.TWILIO_ACCOUNT_SID = "" ∨
        pyStrip st.TWILIO_AUTH_TOKEN = "" ∨
        pyStrip st.TWILIO_PHONE_NUMBER = "") →
       (to_number = none ∨ to_number = some "") →
       send_sms st provider uuidHex to_number body rc =
         { result := .ok { success := true,
                           message_id := some ("DEMO_MODE_" ++ uuidHex),
                           to_ := none,
                           mode := some "demo" },
           provider_calls := 0, sleeps := [] }) ∧
    (∀ (st : Settings) (provider : Nat → ProviderOutcome)
       (uuidHex : String) (to_number : Option String) (body : String)
       (rc : Nat) (m : String),
       (send_sms st provider uuidHex to_number body rc).result =
         .error (.valueError m) →
       (validate_twilio_credentials st).1 = true) := by
  constructor
  · intro st provider uuidHex to_number body rc hen hcred hto
    have hfmt : format_phone_e164 st to_number = none := by
      rcases hto with h | h <;> subst h <;> simp [format_phone_e164]
    rw [send_sms_demo_eq st provider uuidHex to_number body rc hen
      ((validate_fst_false_iff st).mpr hcred), hfmt]
  · intro st provider uuidHex to_number body rc m hr
    by_cases hval : (validate_twilio_credentials st).1 = true
    · exact hval
    · exfalso
      simp at hval
      by_cases hen : st.SMS_ENABLED = false
      · rw [send_sms_disabled_eq st provider uuidHex to_number body rc
          hen] at hr
        simp at hr
      · simp at hen
        rw [send_sms_demo_eq st provider uuidHex to_number body rc hen
          hval] at hr
        simp at hr

/-- Witness for C10 with a `None` recipient under default settings. -/
theorem sms_demo_mode_empty_recipient_witness :
    send_sms defaultSettings provOk "ABCDEF" none "hi" 0 =
      { result := .ok { success := true,
                        message_id := some ("DEMO_MODE_" ++ "ABCDEF"),
                        to_ := none,
                        mode := some "demo" },
        provider_calls := 0, sleeps := [] } :=
  sms_demo_mode_empty_recipient.1 defaultSettings provOk "ABCDEF" none
    "hi" 0 rfl (Or.inl (by decide)) (Or.inl rfl)

end Placement
